import Mathlib

/-!
Shallow embedding of `src/main.rs` of a minimal single-host HTTP file
server.  Strings are modelled as Lean `String` (a wrapper around
`List Char`); the string primitives the Rust code relies on
(`starts_with`, `ends_with`, `contains` of a substring, `to_lowercase`,
`split_whitespace`, byte-slicing `&s[1..]`, `Path::join`) are defined
below over `String.data` so that they both compute and admit proofs.
The filesystem is modelled as an abstract oracle: `pathExists` models
`Path::exists`, and `readToString` models `fs::read_to_string` with
`none` for an `Err` result.
-/

namespace SimpleHttpServer

/-- Model of `str::starts_with` (Rust): `pre` is a prefix of `s`. -/
def strStartsWith (s pre : String) : Bool :=
  pre.data.isPrefixOf s.data

/-- Model of `str::ends_with` (Rust): `suf` is a suffix of `s`. -/
def strEndsWith (s suf : String) : Bool :=
  suf.data.isSuffixOf s.data

/-- `pat` occurs as a contiguous sublist of `l`. -/
def listContainsSub (pat : List Char) : List Char → Bool
  | [] => pat.isEmpty
  | c :: cs => pat.isPrefixOf (c :: cs) || listContainsSub pat cs

/-- Model of `str::contains` (Rust) with a string pattern: substring test. -/
def strContainsSub (s pat : String) : Bool :=
  listContainsSub pat.data s.data

/-- Model of `str::to_lowercase` (Rust) on ASCII data. -/
def lowerStr (s : String) : String :=
  ⟨s.data.map Char.toLower⟩

/-- Model of `&s[1..]` (Rust byte slicing): drops the first character.
For the ASCII request targets handled here byte index 1 is the second
character boundary. -/
def stripFirst (s : String) : String :=
  ⟨s.data.tail⟩

/-- Auxiliary accumulator for `splitWhitespaceList`. -/
def splitWSAux : List Char → List Char → List String
  | [], acc => if acc.isEmpty then [] else [⟨acc.reverse⟩]
  | c :: cs, acc =>
    if c.isWhitespace then
      if acc.isEmpty then splitWSAux cs []
      else ⟨acc.reverse⟩ :: splitWSAux cs []
    else splitWSAux cs (c :: acc)

/-- Model of `str::split_whitespace().collect::<Vec<_>>()` (Rust):
maximal runs of non-whitespace characters; empty pieces are discarded. -/
def splitWhitespaceList (s : String) : List String :=
  splitWSAux s.data []

/-- Abstract model of the filesystem seen by one request.  `pathExists`
models `Path::exists`; `readToString` models `fs::read_to_string`, with
`none` standing for an `Err` result (missing file, directory, non-UTF-8
content, permission error). -/

structure FileSystem where
  pathExists : String → Bool
  readToString : String → Option String

/-- Model of `Path::join` (Rust): if `child` is absolute it replaces
`base` entirely, otherwise it is appended after a separator. -/
def pathJoin (base child : String) : String :=
  if strStartsWith child "/" then child else base ++ "/" ++ child

/-- The structured content of one emitted HTTP response: the status
line's code-and-reason part and the three headers, plus the body that
follows the blank line.  `contentLength` holds the number the server
writes into the `Content-Length` header. -/
structure Response where
  status : String
  contentType : String
  contentLength : Nat
  connection : String
  body : String
  deriving DecidableEq, Repr

/-- Embedding of `get_content_type` from `src/main.rs`: a chain of
case-sensitive `ends_with` tests. -/
def get_content_type (filename : String) : String :=
  if strEndsWith filename ".html" then "text/html"
  else if strEndsWith filename ".css" then "text/css"
  else if strEndsWith filename ".js" then "application/javascript"
  else if strEndsWith filename ".png" then "image/png"
  else if strEndsWith filename ".jpg" || strEndsWith filename ".jpeg" then "image/jpeg"
  else if strEndsWith filename ".gif" then "image/gif"
  else if strEndsWith filename ".svg" then "image/svg+xml"
  else if strEndsWith filename ".ico" then "image/x-icon"
  else if strEndsWith filename ".txt" then "text/plain"
  else if strEndsWith filename ".pdf" then "application/pdf"
  else "application/octet-stream"

/-- Model of `status.split_once(' ').unwrap_or((status, "")).0` (Rust):
the part of `status` before its first space, or all of `status` when it
has no space. -/
def statusCodeOf (status : String) : String :=
  ⟨status.data.takeWhile (fun c => c ≠ ' ')⟩

/-- Embedding of `send_error_response` from `src/main.rs`.  The Rust
function writes the response to the stream; the embedding returns its
structured content.  `status.split_once(' ')` is modelled by taking the
piece before the first space.  `content.len()` on a Rust `String` is its
UTF-8 byte length, modelled by `String.utf8ByteSize`. -/
def send_error_response (fs : FileSystem) (pages_dir status message : String)
    (try_html : Bool) : Response :=
  let status_code := statusCodeOf status
  let pair :=
    if try_html then
      let error_page_path := pathJoin pages_dir (status_code ++ ".html")
      if fs.pathExists error_page_path then
        match fs.readToString error_page_path with
        | some content => (content, "text/html")
        | none => (message, "text/plain")
      else
        (message, "text/plain")
    else
      (message, "text/plain")
  { status := status
    contentType := pair.2
    contentLength := pair.1.utf8ByteSize
    connection := "close"
    body := pair.1 }

/-- Embedding of the `Connection` header scan in `handle_connection`:
the first line whose lowercasing starts with `"connection:"` decides;
it yields `keep-alive` exactly when its lowercasing contains the
substring `"keep-alive"`, and the scan stops there (`break`). -/
def findConnectionHeader : List String → String
  | [] => "close"
  | line :: rest =>
    if strStartsWith (lowerStr line) "connection:" then
      if strContainsSub (lowerStr line) "keep-alive" then "keep-alive" else "close"
    else
      findConnectionHeader rest

/-- Embedding of `handle_connection` from `src/main.rs`, starting after
the request lines have been collected.  The result is the structured
content of the response written to the stream; `none` models a panic
(`http_request.first().unwrap()` on an empty collection).  `contents.len()`
is the UTF-8 byte length of the Rust `String`. -/
def handle_connection (fs : FileSystem) (pages_dir : String)
    (http_request : List String) : Option Response :=
  match http_request with
  | [] => none
  | request_line :: _ =>
    let parts := splitWhitespaceList request_line
    if parts.length < 2 then
      some (send_error_response fs pages_dir "400 Bad Request" "Bad Request" false)
    else
      let method := parts.headD ""
      let path0 := (parts.drop 1).headD ""
      if method ≠ "GET" then
        some (send_error_response fs pages_dir "405 Method Not Allowed"
          "Method Not Allowed" false)
      else
        let path := if path0 = "/" then "/index.html" else path0
        if strContainsSub path ".." then
          some (send_error_response fs pages_dir "403 Forbidden"
            "Directory traversal not allowed" true)
        else
          let filename := stripFirst path
          let full_path := pathJoin pages_dir filename
          if fs.pathExists full_path then
            match fs.readToString full_path with
            | none =>
              some (send_error_response fs pages_dir "500 Internal Server Error"
                "Error reading file" false)
            | some contents =>
              some { status := "200 OK",
                     contentType := get_content_type filename,
                     contentLength := contents.utf8ByteSize,
                     connection := findConnectionHeader http_request,
                     body := contents }
          else
            some (send_error_response fs pages_dir "404 Not Found"
              "File Not Found" true)

/-- Embedding of the line-collection pipeline in `handle_connection`:
`buf_reader.lines().map(|r| r.unwrap()).take_while(|l| !l.is_empty()).collect()`.
The input is the lazy stream of `io::Result` line reads; `Except.error`
is an `Err` read.  Iterators are lazy, so results after the first blank
line are never unwrapped; an `Err` before it is unwrapped and panics,
modelled by `none`. -/
def collectRequestLines : List (Except String String) → Option (List String)
  | [] => some []
  | Except.error _ :: _ => none
  | Except.ok l :: rest =>
    if l = "" then some []
    else (collectRequestLines rest).map (l :: ·)

/-- `handle_connection` from the raw line-read stream: collect the
request lines (panicking on a read error), then dispatch.  `none` models
a panic escaping the handler. -/
def handle_connection_raw (fs : FileSystem) (pages_dir : String)
    (reads : List (Except String String)) : Option Response :=
  (collectRequestLines reads).bind (handle_connection fs pages_dir)

/-- Spec-side status dispatch, written from the specification's numbered
precedence list (§4.3): fewer than 2 tokens → 400; method ≠ GET → 405;
path contains `..` → 403; resolved file missing → 404; unreadable → 500;
otherwise 200 with the file contents (returned as the second component). -/
def specStatusOutcome (fs : FileSystem) (dir line : String) : String × Option String :=
  let tokens := splitWhitespaceList line
  if tokens.length < 2 then ("400 Bad Request", none)
  else if tokens.headD "" ≠ "GET" then ("405 Method Not Allowed", none)
  else
    let target := (tokens.drop 1).headD ""
    let path := if target = "/" then "/index.html" else target
    if strContainsSub path ".." then ("403 Forbidden", none)
    else
      let resolved := pathJoin dir (stripFirst path)
      if fs.pathExists resolved then
        match fs.readToString resolved with
        | some contents => ("200 OK", some contents)
        | none => ("500 Internal Server Error", none)
      else ("404 Not Found", none)

/-- The resolution of a request target to a filesystem location, as the
code performs it: `/` is replaced by `/index.html`, the first character
is dropped (`&path[1..]`), and the remainder is joined onto the root
with `Path::join`. -/
def resolveTarget (dir target : String) : String :=
  let path := if target = "/" then "/index.html" else target
  pathJoin dir (stripFirst path)

/-- Spec-side content-type table (§6): ordered suffix/type pairs, first
match wins, with the generic binary default. -/
def specContentTypeTable : List (String × String) :=
  [(".html", "text/html"), (".css", "text/css"), (".js", "application/javascript"),
   (".png", "image/png"), (".jpg", "image/jpeg"), (".jpeg", "image/jpeg"),
   (".gif", "image/gif"), (".svg", "image/svg+xml"), (".ico", "image/x-icon"),
   (".txt", "text/plain"), (".pdf", "application/pdf")]

/-- Spec-side content-type inference: first suffix match in the table,
else `application/octet-stream`. -/
def specContentType (filename : String) : String :=
  match specContentTypeTable.find? (fun e => strEndsWith filename e.1) with
  | some e => e.2
  | none => "application/octet-stream"

/-- Spec-side connection-mode negotiation: the first request line whose
name matches `Connection` case-insensitively decides; its value is
recognized as keep-alive when its lowercasing contains `"keep-alive"`. -/
def specConnectionMode : List String → String
  | [] => "close"
  | line :: rest =>
    if strStartsWith (lowerStr line) "connection:" then
      if strContainsSub (lowerStr line) "keep-alive" then "keep-alive" else "close"
    else
      specConnectionMode rest

/-- A concrete filesystem for witnesses: the root `pages` holds
`index.html` and a custom `404.html`. -/
def fsDemo : FileSystem :=
  { pathExists := fun p => p = "pages/index.html" || p = "pages/404.html"
    readToString := fun p =>
      if p = "pages/index.html" then some "<h1>Hi</h1>"
      else if p = "pages/404.html" then some "custom 404"
      else none }

/-- A concrete filesystem with no files at all. -/
def fsEmpty : FileSystem :=
  { pathExists := fun _ => false, readToString := fun _ => none }

/-- A concrete filesystem whose root holds only `index.html`; there is
no custom `404.html`. -/
def fsNoErrorPage : FileSystem :=
  { pathExists := fun p => p = "pages/index.html"
    readToString := fun p =>
      if p = "pages/index.html" then some "<h1>Hi</h1>" else none }

lemma send_error_response_connection (fs : FileSystem) (d s m : String) (t : Bool) :
    (send_error_response fs d s m t).connection = "close" := rfl

lemma send_error_response_status (fs : FileSystem) (d s m : String) (t : Bool) :
    (send_error_response fs d s m t).status = s := rfl

lemma send_error_response_length (fs : FileSystem) (d s m : String) (t : Bool) :
    (send_error_response fs d s m t).contentLength
      = (send_error_response fs d s m t).body.utf8ByteSize := rfl

/-- C6: for every response the server emits — success or error — the
`Content-Length` header value equals the exact byte length of the body
that follows the blank line. -/
theorem c6_content_length_exact (fs : FileSystem) (dir : String)
    (req : List String) (r : Response)
    (h : handle_connection fs dir req = some r) :
    r.contentLength = r.body.utf8ByteSize := by
  cases req with
  | nil => simp [handle_connection] at h
  | cons line rest =>
    simp only [handle_connection] at h
    repeat' split at h
    all_goals (injection h with h; subst h)
    all_goals rfl

/-- Witness for C6 at a concrete input: `GET /` against `fsDemo`. -/
theorem c6_content_length_exact_witness :
    handle_connection fsDemo "pages" ["GET / HTTP/1.1"]
      = some ⟨"200 OK", "text/html", 11, "close", "<h1>Hi</h1>"⟩ ∧
    (⟨"200 OK", "text/html", 11, "close", "<h1>Hi</h1>"⟩ : Response).contentLength
      = (⟨"200 OK", "text/html", 11, "close", "<h1>Hi</h1>"⟩ : Response).body.utf8ByteSize :=
  ⟨by decide,
   c6_content_length_exact fsDemo "pages" ["GET / HTTP/1.1"] _ (by decide)⟩

/-- C9: every non-200 response carries `Connection: close`
unconditionally, and only 200 responses can carry
`Connection: keep-alive`. -/
theorem c9_non_200_connection_close (fs : FileSystem) (dir : String)
    (req : List String) (r : Response)
    (h : handle_connection fs dir req = some r) :
    (r.status ≠ "200 OK" → r.connection = "close") ∧
    (r.connection = "keep-alive" → r.status = "200 OK") := by
  cases req with
  | nil => simp [handle_connection] at h
  | cons line rest =>
    simp only [handle_connection] at h
    repeat' split at h
    all_goals (injection h with h; subst h)
    all_goals
      refine ⟨fun hs => ?_, fun hc => ?_⟩ <;>
        first
          | rfl
          | exact absurd rfl hs
          | (rw [send_error_response_connection] at hc; exact absurd hc (by decide))

/-- Witness for C9 at a concrete input: a 404 with a keep-alive request
header still answers `Connection: close`. -/
theorem c9_non_200_connection_close_witness :
    handle_connection fsEmpty "pages" ["GET /nope HTTP/1.1", "Connection: keep-alive"]
      = some ⟨"404 Not Found", "text/plain", 14, "close", "File Not Found"⟩ ∧
    ((⟨"404 Not Found", "text/plain", 14, "close", "File Not Found"⟩ : Response).status
        ≠ "200 OK" →
      (⟨"404 Not Found", "text/plain", 14, "close", "File Not Found"⟩ : Response).connection
        = "close") :=
  ⟨by decide,
   (c9_non_200_connection_close fsEmpty "pages"
      ["GET /nope HTTP/1.1", "Connection: keep-alive"] _ (by decide)).1⟩

/-- C8: the spec requires the handler to terminate gracefully on a read
error or a premature stream close; the code instead calls `unwrap` on
each line read and on `http_request.first()`, so it panics on an empty
stream, on an immediate read error, and on a read error that arrives
before the blank line.  `none` models the panic escaping the handler,
which runs on the listener's only thread. -/
theorem c8_handler_panics_on_io_failure :
    handle_connection_raw fsEmpty "pages" [] = none ∧
    handle_connection_raw fsEmpty "pages" [Except.error "connection reset"] = none ∧
    handle_connection_raw fsEmpty "pages"
      [Except.ok "GET / HTTP/1.1", Except.error "connection reset"] = none := by
  decide

/-- C1: for every connection whose request produces a non-empty first
line, the response status follows the spec's precedence (400 for fewer
than 2 tokens, then 405 for non-GET, then 403 for `..`, then 404 for a
missing file, then 500 for an unreadable file, else 200), and a 200
response carries the file contents as its body. -/
theorem c1_status_precedence (fs : FileSystem) (dir line : String) (rest : List String) :
    ∃ r, handle_connection fs dir (line :: rest) = some r ∧
      r.status = (specStatusOutcome fs dir line).1 ∧
      ∀ b, (specStatusOutcome fs dir line).2 = some b → r.body = b := by
  simp only [handle_connection, specStatusOutcome]
  by_cases h1 : (splitWhitespaceList line).length < 2
  · simp [h1, send_error_response_status]
  by_cases h2 : (splitWhitespaceList line).head?.getD "" = "GET"
  case neg => simp [h1, h2, send_error_response_status]
  case pos =>
    simp [h1, h2]
    generalize (if (splitWhitespaceList line)[1]?.getD "" = "/" then "/index.html"
        else (splitWhitespaceList line)[1]?.getD "") = p
    by_cases h4 : strContainsSub p ".." = true
    · simp [h4, send_error_response_status]
    by_cases h5 : fs.pathExists (pathJoin dir (stripFirst p)) = true
    case neg => simp [h4, h5, send_error_response_status]
    case pos =>
      cases h6 : fs.readToString (pathJoin dir (stripFirst p)) with
      | none => simp [h4, h5, h6, send_error_response_status]
      | some contents => simp [h4, h5, h6]

/-- Witness for C1 at a concrete input: `GET / HTTP/1.1` against `fsDemo`. -/
theorem c1_status_precedence_witness :
    ∃ r, handle_connection fsDemo "pages" ["GET / HTTP/1.1"] = some r ∧
      r.status = (specStatusOutcome fsDemo "pages" "GET / HTTP/1.1").1 ∧
      ∀ b, (specStatusOutcome fsDemo "pages" "GET / HTTP/1.1").2 = some b → r.body = b :=
  c1_status_precedence fsDemo "pages" "GET / HTTP/1.1" []

/-- C3: a GET request whose target contains the substring `..` anywhere
is answered 403 Forbidden, no matter what the filesystem holds — never
404 and never 200. -/
theorem c3_traversal_always_403 (fs : FileSystem) (dir line target : String)
    (rest vrest : List String)
    (hsplit : splitWhitespaceList line = "GET" :: target :: vrest)
    (hdot : strContainsSub target ".." = true) :
    (handle_connection fs dir (line :: rest)).map Response.status
      = some "403 Forbidden" := by
  have ht : target ≠ "/" := by
    intro h
    subst h
    exact absurd hdot (by decide)
  simp [handle_connection, hsplit, ht, hdot, send_error_response_status]
  rw [if_neg (by omega : ¬(vrest.length + 1 + 1 < 2))]
  exact ⟨_, rfl, rfl⟩

/-- Witness for C3 at a concrete input: `GET /../etc/passwd` against a
filesystem that does hold files. -/
theorem c3_traversal_always_403_witness :
    splitWhitespaceList "GET /../etc/passwd HTTP/1.1"
      = "GET" :: "/../etc/passwd" :: ["HTTP/1.1"] ∧
    strContainsSub "/../etc/passwd" ".." = true ∧
    (handle_connection fsDemo "pages" ["GET /../etc/passwd HTTP/1.1"]).map Response.status
      = some "403 Forbidden" :=
  ⟨by decide, by decide,
   c3_traversal_always_403 fsDemo "pages" "GET /../etc/passwd HTTP/1.1"
     "/../etc/passwd" [] ["HTTP/1.1"] (by decide) (by decide)⟩

/-- The code's suffix chain and the spec's first-match table agree on
every filename. -/
lemma content_type_table_agrees (name : String) :
    get_content_type name = specContentType name := by
  simp only [get_content_type, specContentType, specContentTypeTable]
  by_cases h1 : strEndsWith name ".html" = true
  · simp [List.find?, h1]
  by_cases h2 : strEndsWith name ".css" = true
  · simp [List.find?, h1, h2]
  by_cases h3 : strEndsWith name ".js" = true
  · simp [List.find?, h1, h2, h3]
  by_cases h4 : strEndsWith name ".png" = true
  · simp [List.find?, h1, h2, h3, h4]
  by_cases h5 : strEndsWith name ".jpg" = true
  · simp [List.find?, h1, h2, h3, h4, h5]
  by_cases h6 : strEndsWith name ".jpeg" = true
  · simp [List.find?, h1, h2, h3, h4, h5, h6]
  by_cases h7 : strEndsWith name ".gif" = true
  · simp [List.find?, h1, h2, h3, h4, h5, h6, h7]
  by_cases h8 : strEndsWith name ".svg" = true
  · simp [List.find?, h1, h2, h3, h4, h5, h6, h7, h8]
  by_cases h9 : strEndsWith name ".ico" = true
  · simp [List.find?, h1, h2, h3, h4, h5, h6, h7, h8, h9]
  by_cases h10 : strEndsWith name ".txt" = true
  · simp [List.find?, h1, h2, h3, h4, h5, h6, h7, h8, h9, h10]
  by_cases h11 : strEndsWith name ".pdf" = true
  · simp [List.find?, h1, h2, h3, h4, h5, h6, h7, h8, h9, h10, h11]
  simp [List.find?, h1, h2, h3, h4, h5, h6, h7, h8, h9, h10, h11]

/-- The filename the code derives from a request line: token 1 of the
whitespace split, with `/` replaced by `/index.html`, first character
dropped. -/
def requestFilename (line : String) : String :=
  let target := ((splitWhitespaceList line).drop 1).headD ""
  stripFirst (if target = "/" then "/index.html" else target)

/-- C7: the code's content-type chain agrees with the spec's fixed
first-match suffix table on every filename (unknown suffixes giving
`application/octet-stream`), and every 200 response's `Content-Type` is
exactly the table lookup on the resolved filename. -/
theorem c7_content_type_from_table :
    (∀ name, get_content_type name = specContentType name) ∧
    ∀ fs dir line rest r, handle_connection fs dir (line :: rest) = some r →
      r.status = "200 OK" → r.contentType = specContentType (requestFilename line) := by
  refine ⟨content_type_table_agrees, ?_⟩
  intro fs dir line rest r h h200
  simp only [handle_connection] at h
  simp only [requestFilename]
  generalize (if ((splitWhitespaceList line).drop 1).headD "" = "/" then "/index.html"
      else ((splitWhitespaceList line).drop 1).headD "") = p at h ⊢
  repeat' split at h
  all_goals (injection h with h; subst h)
  all_goals
    first
      | (rw [send_error_response_status] at h200; exact absurd h200 (by decide))
      | exact content_type_table_agrees _

/-- Witness for C7 at concrete inputs: an unknown suffix and a 200
response for `GET /`. -/
theorem c7_content_type_from_table_witness :
    get_content_type "style.css" = specContentType "style.css" ∧
    handle_connection fsDemo "pages" ["GET / HTTP/1.1"]
      = some ⟨"200 OK", "text/html", 11, "close", "<h1>Hi</h1>"⟩ ∧
    (⟨"200 OK", "text/html", 11, "close", "<h1>Hi</h1>"⟩ : Response).contentType
      = specContentType (requestFilename "GET / HTTP/1.1") :=
  ⟨c7_content_type_from_table.1 "style.css", by decide,
   c7_content_type_from_table.2 fsDemo "pages" "GET / HTTP/1.1" [] _ (by decide) (by decide)⟩

lemma send_error_response_html (fs : FileSystem) (dir status message c : String)
    (hex : fs.pathExists (pathJoin dir (statusCodeOf status ++ ".html")) = true)
    (hrd : fs.readToString (pathJoin dir (statusCodeOf status ++ ".html")) = some c) :
    send_error_response fs dir status message true
      = ⟨status, "text/html", c.utf8ByteSize, "close", c⟩ := by
  simp [send_error_response, hex, hrd]

lemma send_error_response_plain (fs : FileSystem) (dir status message : String)
    (h : fs.pathExists (pathJoin dir (statusCodeOf status ++ ".html")) = false ∨
         fs.readToString (pathJoin dir (statusCodeOf status ++ ".html")) = none) :
    send_error_response fs dir status message true
      = ⟨status, "text/plain", message.utf8ByteSize, "close", message⟩ := by
  rcases h with h | h
  · simp [send_error_response, h]
  · by_cases hex : fs.pathExists (pathJoin dir (statusCodeOf status ++ ".html")) = true
    · simp [send_error_response, hex, h]
    · simp [send_error_response, hex]

/-- C4: a GET request for a missing file is answered 404; with a
readable `<root>/404.html` the body is that file's contents typed
`text/html`, otherwise the body is the literal `File Not Found` typed
`text/plain`. -/
theorem c4_404_fallback (fs : FileSystem) (dir line target : String)
    (rest vrest : List String)
    (hsplit : splitWhitespaceList line = "GET" :: target :: vrest)
    (hnodot : strContainsSub (if target = "/" then "/index.html" else target) ".." = false)
    (hmiss : fs.pathExists (resolveTarget dir target) = false) :
    ∃ r, handle_connection fs dir (line :: rest) = some r ∧
      r.status = "404 Not Found" ∧
      (∀ c, fs.pathExists (pathJoin dir "404.html") = true →
        fs.readToString (pathJoin dir "404.html") = some c →
        r.body = c ∧ r.contentType = "text/html") ∧
      ((fs.pathExists (pathJoin dir "404.html") = false ∨
          fs.readToString (pathJoin dir "404.html") = none) →
        r.body = "File Not Found" ∧ r.contentType = "text/plain") := by
  have hpage : pathJoin dir (statusCodeOf "404 Not Found" ++ ".html")
      = pathJoin dir "404.html" := by
    rw [(by decide : (statusCodeOf "404 Not Found" ++ ".html" : String) = "404.html")]
  simp only [resolveTarget] at hmiss
  simp [handle_connection, hsplit, hnodot, hmiss]
  rw [if_neg (by omega : ¬(vrest.length + 1 + 1 < 2))]
  refine ⟨_, rfl, rfl, fun c hex hrd => ?_, fun hpl => ?_⟩
  · rw [send_error_response_html fs dir "404 Not Found" "File Not Found" c
      (hpage ▸ hex) (hpage ▸ hrd)]
    exact ⟨rfl, rfl⟩
  · rw [send_error_response_plain fs dir "404 Not Found" "File Not Found" (hpage ▸ hpl)]
    exact ⟨rfl, rfl⟩

/-- Witness for C4 at a concrete input: `GET /nope` against `fsDemo`,
whose root holds a readable custom `404.html`. -/
theorem c4_404_fallback_witness :
    ∃ r, handle_connection fsDemo "pages" ["GET /nope HTTP/1.1"] = some r ∧
      r.status = "404 Not Found" ∧
      (∀ c, fsDemo.pathExists (pathJoin "pages" "404.html") = true →
        fsDemo.readToString (pathJoin "pages" "404.html") = some c →
        r.body = c ∧ r.contentType = "text/html") ∧
      ((fsDemo.pathExists (pathJoin "pages" "404.html") = false ∨
          fsDemo.readToString (pathJoin "pages" "404.html") = none) →
        r.body = "File Not Found" ∧ r.contentType = "text/plain") :=
  c4_404_fallback fsDemo "pages" "GET /nope HTTP/1.1" "/nope" [] ["HTTP/1.1"]
    (by decide) (by decide) (by decide)

/-- The code's `Connection` header scan and the spec-side
connection-mode negotiation agree on every request. -/
lemma findConnectionHeader_eq_spec :
    ∀ ls : List String, findConnectionHeader ls = specConnectionMode ls
  | [] => rfl
  | l :: rest => by
    simp only [findConnectionHeader, specConnectionMode]
    rw [findConnectionHeader_eq_spec rest]

/-- Counterexample for C5 as stated ("for every response ..."): a 404
response to a request carrying `Connection: keep-alive` still answers
`Connection: close`, and a 200 response to a request whose `Connection`
value is `do-not-keep-alive` (not the value keep-alive, merely
containing it) answers `keep-alive`. -/
theorem c5_counterexample :
    (handle_connection fsEmpty "pages"
        ["GET /nope HTTP/1.1", "Connection: keep-alive"]).map Response.connection
      = some "close" ∧
    (handle_connection fsDemo "pages"
        ["GET /index.html HTTP/1.1", "Connection: do-not-keep-alive"]).map Response.connection
      = some "keep-alive" := by
  decide

/-- C5 (amended): only 200 responses negotiate the connection mode — a
200 response's `Connection` header is `keep-alive` exactly when the
first request line whose lowercased form starts with `connection:`
contains the substring `keep-alive` (case-insensitively), and every
non-200 response carries `Connection: close` regardless of the request. -/
theorem c5_connection_negotiation (fs : FileSystem) (dir : String)
    (req : List String) (r : Response)
    (h : handle_connection fs dir req = some r) :
    (r.status = "200 OK" → r.connection = specConnectionMode req) ∧
    (r.status ≠ "200 OK" → r.connection = "close") := by
  cases req with
  | nil => simp [handle_connection] at h
  | cons line rest =>
    simp only [handle_connection] at h
    repeat' split at h
    all_goals (injection h with h; subst h)
    all_goals refine ⟨fun hs => ?_, fun hn => ?_⟩
    all_goals
      first
        | rfl
        | exact absurd rfl hn
        | exact findConnectionHeader_eq_spec _
        | (rw [send_error_response_status] at hs; exact absurd hs (by decide))

/-- Witness for C5 (amended) at a concrete input: a 200 response with a
keep-alive request header. -/
theorem c5_connection_negotiation_witness :
    handle_connection fsDemo "pages" ["GET / HTTP/1.1", "Connection: Keep-Alive"]
      = some ⟨"200 OK", "text/html", 11, "keep-alive", "<h1>Hi</h1>"⟩ ∧
    ((⟨"200 OK", "text/html", 11, "keep-alive", "<h1>Hi</h1>"⟩ : Response).status = "200 OK" →
      (⟨"200 OK", "text/html", 11, "keep-alive", "<h1>Hi</h1>"⟩ : Response).connection
        = specConnectionMode ["GET / HTTP/1.1", "Connection: Keep-Alive"]) :=
  ⟨by decide,
   (c5_connection_negotiation fsDemo "pages"
      ["GET / HTTP/1.1", "Connection: Keep-Alive"] _ (by decide)).1⟩

/-- A filesystem in which `/etc/passwd` exists and is readable while
nothing under the root directory exists: used to exhibit the
`Path::join` absolute-replacement escape. -/
def fsSystem : FileSystem :=
  { pathExists := fun p => p = "/etc/passwd"
    readToString := fun p => if p = "/etc/passwd" then some "root:x:0:0" else none }

lemma stripFirst_slash_append (q : String) : stripFirst ("/" ++ q) = q := by
  apply String.ext
  show ("/" ++ q).data.tail = q.data
  rw [String.data_append]
  rfl

/-- Counterexample for C2 as stated: a target beginning with `//`
resolves to an absolute path that replaces the root entirely (and is
served from outside the root), and a target not beginning with `/`
loses its first character rather than keeping it. -/
theorem c2_counterexample :
    resolveTarget "/root/pages" "//etc/passwd" = "/etc/passwd" ∧
    resolveTarget "/root/pages" "//etc/passwd" ≠ "/root/pages/etc/passwd" ∧
    strStartsWith (resolveTarget "/root/pages" "//etc/passwd") "/root/pages" = false ∧
    resolveTarget "/root/pages" "abc" = "/root/pages/bc" ∧
    resolveTarget "/root/pages" "abc" ≠ "/root/pages/abc" ∧
    (handle_connection fsSystem "/root/pages" ["GET //etc/passwd HTTP/1.1"]).map
      (fun r => (r.status, r.body)) = some ("200 OK", "root:x:0:0") := by
  decide

/-- C2 (amended): `/` resolves to `<root>/index.html`; a target `/q`
whose remainder `q` does not itself begin with `/` resolves to
`<root>/q` exactly; a target `//q'`-style (remainder absolute) resolves
to the remainder alone, discarding the root, because `Path::join`
replaces the base with an absolute argument; and a target not beginning
with `/` has its first character dropped (not a slash) before joining. -/
theorem c2_resolution :
    (∀ dir, resolveTarget dir "/" = dir ++ "/index.html") ∧
    (∀ dir q, strStartsWith q "/" = false → q ≠ "" →
      resolveTarget dir ("/" ++ q) = dir ++ "/" ++ q) ∧
    (∀ dir q, strStartsWith q "/" = true → resolveTarget dir ("/" ++ q) = q) ∧
    (∀ (dir : String) (c : Char) (q : String), c ≠ '/' →
      resolveTarget dir ⟨c :: q.data⟩ = pathJoin dir q) := by
  refine ⟨fun dir => ?_, fun dir q hq hne => ?_, fun dir q hq => ?_, fun dir c q hc => ?_⟩
  · have h0 : resolveTarget dir "/" = pathJoin dir "index.html" := rfl
    rw [h0]
    simp only [pathJoin]
    rw [if_neg (by decide : ¬(strStartsWith "index.html" "/" = true))]
    apply String.ext
    rw [String.data_append, String.data_append, String.data_append, List.append_assoc]
    rfl
  · have hp : ("/" ++ q) ≠ "/" := by
      intro he
      apply hne
      have hd := congrArg String.data he
      rw [String.data_append] at hd
      have h2 : q.data = [] := by
        injection (hd : '/' :: q.data = ['/']) with _ h2
      exact String.ext h2
    simp only [resolveTarget]
    rw [if_neg hp, stripFirst_slash_append]
    simp only [pathJoin]
    rw [if_neg (by simp [hq] : ¬(strStartsWith q "/" = true))]
  · have hp : ("/" ++ q) ≠ "/" := by
      intro he
      have hd := congrArg String.data he
      rw [String.data_append] at hd
      have h2 : q.data = [] := by
        injection (hd : '/' :: q.data = ['/']) with _ h2
      rw [strStartsWith, h2] at hq
      simp [List.isPrefixOf] at hq
    simp only [resolveTarget]
    rw [if_neg hp, stripFirst_slash_append]
    simp only [pathJoin]
    rw [if_pos hq]
  · have hp : (⟨c :: q.data⟩ : String) ≠ "/" := by
      intro he
      have hd := congrArg String.data he
      injection (hd : c :: q.data = ['/']) with h1 _
      exact hc h1
    simp only [resolveTarget]
    rw [if_neg hp]
    have hs : stripFirst ⟨c :: q.data⟩ = q := String.ext rfl
    rw [hs]

/-- Witness for C2 (amended) at concrete inputs, one per clause with a
hypothesis. -/
theorem c2_resolution_witness :
    (strStartsWith "a.txt" "/" = false ∧ ("a.txt" : String) ≠ "" ∧
      resolveTarget "/root" ("/" ++ "a.txt") = "/root" ++ "/" ++ "a.txt") ∧
    (strStartsWith "/etc" "/" = true ∧ resolveTarget "/root" ("/" ++ "/etc") = "/etc") ∧
    ('a' ≠ '/' ∧ resolveTarget "/root" ⟨'a' :: "bc".data⟩ = pathJoin "/root" "bc") :=
  ⟨⟨by decide, by decide, c2_resolution.2.1 "/root" "a.txt" (by decide) (by decide)⟩,
   ⟨by decide, c2_resolution.2.2.1 "/root" "/etc" (by decide)⟩,
   ⟨by decide, c2_resolution.2.2.2 "/root" 'a' "bc" (by decide)⟩⟩

end SimpleHttpServer

